import Mathlib

/-!
Shallow embedding of `controlador_passadeira.py` (class `DigitalTwinController`).

Response bodies are modelled as `List Char` (Python `str`); paths, actuator
names and query-parameter strings, which are only ever concatenated and
compared, stay as Lean `String`.  Each HTTP round trip is modelled by an
`HttpOutcome` describing what the remote side / transport did; every method of
the class becomes a pure function from the client state and the outcome(s) of
the requests it issues to a triple (requests sent, returned value or raised
error, client state after the call).  A raised exception that escapes a method
is an `Except.error`.
-/

/-- Characters stripped by Python `str.strip()` with no argument (the ASCII
whitespace characters; the protocol bodies of this repository are ASCII). -/
def pyIsSpace (c : Char) : Bool :=
  c = ' ' || c = '\t' || c = '\n' || c = '\r' || c = '\x0b' || c = '\x0c'

/-- Python `str.strip()`: remove leading and trailing whitespace. -/
def pyStrip (s : List Char) : List Char :=
  ((s.dropWhile pyIsSpace).reverse.dropWhile pyIsSpace).reverse

/-- Python `str.split(sep)` for a one-character separator: `"".split(":") = [""]`,
`"VALUE:1".split(":") = ["VALUE", "1"]`, `"VALUE:".split(":") = ["VALUE", ""]`. -/
def pySplit (sep : Char) : List Char → List (List Char)
  | [] => [[]]
  | c :: rest =>
    let r := pySplit sep rest
    if c = sep then [] :: r
    else
      match r with
      | [] => [[c]]
      | h :: t => (c :: h) :: t

/-- Helper for `pyInt`: the numeric value of a nonempty all-digit string. -/
def pyDigitsVal (s : List Char) : Nat :=
  s.foldl (fun acc c => acc * 10 + (c.toNat - '0'.toNat)) 0

/-- Helper for `pyInt`: `some` value iff the string is nonempty and all decimal
digits, else `none` (Python `ValueError`). -/
def pyDigits? (s : List Char) : Option Nat :=
  if s.isEmpty then none
  else if s.all Char.isDigit then some (pyDigitsVal s)
  else none

/-- Python `int(str)`: strips surrounding whitespace, allows one leading sign,
then requires a nonempty run of decimal digits; `none` models the raised
`ValueError`.  (Digit-group underscores and non-ASCII digits, which Python also
accepts but which never occur in this protocol, are not modelled.) -/
def pyInt (s : List Char) : Option Int :=
  match pyStrip s with
  | '-' :: rest => (pyDigits? rest).map (fun n => -(n : Int))
  | '+' :: rest => (pyDigits? rest).map (fun n => (n : Int))
  | t => (pyDigits? t).map (fun n => (n : Int))

/-- Python truthiness of a string: nonempty. -/
def pyTruthy (t : List Char) : Bool := !t.isEmpty

/-- Python `s.startswith(p)`. -/
def pyStartswith (s p : List Char) : Bool := p.isPrefixOf s

/-- Python `not` applied to an optional boolean: `not None` is `True`,
`not True` is `False`, `not False` is `True`. -/
def pyNot : Option Bool → Bool
  | none => true
  | some b => !b

/-- Python `==` between an optional string and a string literal:
`None == s` is `False`. -/
def pyEqOptStr (r : Option (List Char)) (s : List Char) : Bool :=
  match r with
  | some t => decide (t = s)
  | none => false

/-- One HTTP GET request as issued by `requests.get(url, params, timeout)`. -/
structure HttpRequest where
  url : String
  params : List (String × String)
  timeout : Nat
deriving DecidableEq

/-- What the transport / remote side did for one request: a response with a
status code and a body, a timeout, a connection-level failure
(`requests.exceptions.ConnectionError`), or another request exception
(`requests.exceptions.RequestException`). -/
inductive HttpOutcome where
  | response (status : Nat) (body : List Char)
  | timeout
  | connectionError
  | requestException
deriving DecidableEq

/-- The state of a `DigitalTwinController` object: exactly the fields assigned
in `__init__` (`self.base_url` and `self.default_timeout`). -/
structure Client where
  base_url : String
  default_timeout : Nat
deriving DecidableEq

/-- `requests.Response.raise_for_status` raises `HTTPError` exactly for status
codes 400-599. -/
def raise_for_status_errors (status : Nat) : Bool :=
  decide (400 ≤ status) && decide (status < 600)

namespace DigitalTwinController

/-- `self.base_url = f"http://{host}:{port}"`. -/
def mk_base_url (host : String) (port : Nat) : String :=
  "http://" ++ host ++ ":" ++ toString port

/-- `_request`: issues one GET on `base_url + endpoint` with the fixed timeout;
on a 2xx (or any non-4xx/5xx) response returns the stripped body; on timeout,
HTTP error status or other request exception returns `None` (after logging);
a connection error is re-raised (`Except.error ()`). -/
def _request (c : Client) (endpoint : String) (params : List (String × String))
    (o : HttpOutcome) : List HttpRequest × Except Unit (Option (List Char)) × Client :=
  let url := c.base_url ++ endpoint
  let sent : List HttpRequest := [⟨url, params, c.default_timeout⟩]
  let res : Except Unit (Option (List Char)) :=
    match o with
    | .response status body =>
        if raise_for_status_errors status then .ok none
        else .ok (some (pyStrip body))
    | .timeout => .ok none
    | .connectionError => .error ()
    | .requestException => .ok none
  (sent, res, c)

/-- `_set_actuator(name, value)`: one request to `/set_actuator` with
`value` encoded `"1"`/`"0"`; returns `True` iff the response text is truthy and
starts with `"OK:"`. -/
def _set_actuator (c : Client) (name : String) (value : Bool) (o : HttpOutcome) :
    List HttpRequest × Except Unit Bool × Client :=
  let val_param : String := if value then "1" else "0"
  let params := [("name", name), ("value", val_param)]
  let (sent, res, c1) := _request c "/set_actuator" params o
  let ret : Except Unit Bool :=
    match res with
    | .error e => .error e
    | .ok response_text =>
        match response_text with
        | some t => .ok (pyTruthy t && pyStartswith t "OK:".data)
        | none => .ok false
  (sent, ret, c1)

/-- The body-parsing part of `_get_bit`: if the response text is truthy and
starts with `"VALUE:"`, take `split(":")[1]` and parse it with `int`;
`IndexError` / `ValueError` (and a missing prefix, or `None`) give `None`. -/
def _get_bit_parse (response_text : Option (List Char)) : Option Bool :=
  match response_text with
  | none => none
  | some t =>
      if pyTruthy t && pyStartswith t "VALUE:".data then
        match (pySplit ':' t)[1]? with
        | none => none
        | some field =>
            match pyInt field with
            | none => none
            | some val => some (decide (val = 1))
      else none

/-- `_get_bit(endpoint_path, name)`: one request with parameter `name`, then
parse the body; the parsed tri-state boolean is the return value. -/
def _get_bit (c : Client) (endpoint_path name : String) (o : HttpOutcome) :
    List HttpRequest × Except Unit (Option Bool) × Client :=
  let (sent, res, c1) := _request c endpoint_path [("name", name)] o
  let ret : Except Unit (Option Bool) :=
    match res with
    | .error e => .error e
    | .ok response_text => .ok (_get_bit_parse response_text)
  (sent, ret, c1)

/-- `_ping()`: one request to `/ping` with no parameters; returns
`response_text == "PONG"`. -/
def _ping (c : Client) (o : HttpOutcome) : List HttpRequest × Except Unit Bool × Client :=
  let (sent, res, c1) := _request c "/ping" [] o
  let ret : Except Unit Bool :=
    match res with
    | .error e => .error e
    | .ok response_text => .ok (pyEqOptStr response_text "PONG".data)
  (sent, ret, c1)

/-- The error raised by the constructor when the probe fails: either the
`ConnectionError` raised by `__init__` itself (with its message), or the
`requests` connection error re-raised out of `_request` via `_ping`. -/
inductive InitError where
  | connectionFailure (msg : String)
  | propagatedRequestError
deriving DecidableEq

/-- The constructor's failure message
`f"Não foi possível conectar ao Digital Twin em {self.base_url}. ..."`. -/
def connection_failure_msg (base_url : String) : String :=
  "Não foi possível conectar ao Digital Twin em " ++ base_url ++
    ". Verifique se o Unity está rodando e o servidor HTTP está ativo."

/-- `__init__(host, port)`: builds the base URL, sets the fixed 5-second
timeout, probes with `_ping` and raises `ConnectionError` if the probe result
is not truthy; a connection error inside the probe propagates as-is. -/
def init (host : String) (port : Nat) (o : HttpOutcome) : Except InitError Client :=
  let c : Client := ⟨mk_base_url host port, 5⟩
  let (_, res, c1) := _ping c o
  match res with
  | .error _ => .error .propagatedRequestError
  | .ok pong =>
      if pong then .ok c1
      else .error (.connectionFailure (connection_failure_msg c1.base_url))

/-- `move_punch_down()`: set actuator `Q1_4` to `True`. -/
def move_punch_down (c : Client) (o : HttpOutcome) :
    List HttpRequest × Except Unit Bool × Client :=
  _set_actuator c "Q1_4" true o

/-- `move_punch_up()`: set actuator `Q1_5` to `True`. -/
def move_punch_up (c : Client) (o : HttpOutcome) :
    List HttpRequest × Except Unit Bool × Client :=
  _set_actuator c "Q1_5" true o

/-- `stop_punch()`: `res1 = set(Q1_4, False); res2 = set(Q1_5, False);
return res1 and res2`.  An exception in the first call aborts before the
second request is issued. -/
def stop_punch (c : Client) (o1 o2 : HttpOutcome) :
    List HttpRequest × Except Unit Bool × Client :=
  let (s1, r1, _) := _set_actuator c "Q1_4" false o1
  match r1 with
  | .error e => (s1, .error e, c)
  | .ok res1 =>
      let (s2, r2, _) := _set_actuator c "Q1_5" false o2
      match r2 with
      | .error e => (s1 ++ s2, .error e, c)
      | .ok res2 => (s1 ++ s2, .ok (res1 && res2), c)

/-- `move_conveyor_left()`: set actuator `Q1_7` to `True`. -/
def move_conveyor_left (c : Client) (o : HttpOutcome) :
    List HttpRequest × Except Unit Bool × Client :=
  _set_actuator c "Q1_7" true o

/-- `move_conveyor_right()`: set actuator `Q1_6` to `True`. -/
def move_conveyor_right (c : Client) (o : HttpOutcome) :
    List HttpRequest × Except Unit Bool × Client :=
  _set_actuator c "Q1_6" true o

/-- `stop_conveyor()`: `res1 = set(Q1_6, False); res2 = set(Q1_7, False);
return res1 and res2`. -/
def stop_conveyor (c : Client) (o1 o2 : HttpOutcome) :
    List HttpRequest × Except Unit Bool × Client :=
  let (s1, r1, _) := _set_actuator c "Q1_6" false o1
  match r1 with
  | .error e => (s1, .error e, c)
  | .ok res1 =>
      let (s2, r2, _) := _set_actuator c "Q1_7" false o2
      match r2 with
      | .error e => (s1 ++ s2, .error e, c)
      | .ok res2 => (s1 ++ s2, .ok (res1 && res2), c)

/-- `is_punch_down_sensor_active()`: read bit of sensor `I0_1`, as-is. -/
def is_punch_down_sensor_active (c : Client) (o : HttpOutcome) :
    List HttpRequest × Except Unit (Option Bool) × Client :=
  _get_bit c "/get_sensor" "I0_1" o

/-- `is_punch_up_sensor_active()`: read bit of sensor `I0_2`, as-is. -/
def is_punch_up_sensor_active (c : Client) (o : HttpOutcome) :
    List HttpRequest × Except Unit (Option Bool) × Client :=
  _get_bit c "/get_sensor" "I0_2" o

/-- `is_conveyor_right_limit_active()`: `not self._get_bit("/get_sensor", "I0_3")`. -/
def is_conveyor_right_limit_active (c : Client) (o : HttpOutcome) :
    List HttpRequest × Except Unit Bool × Client :=
  let (s, r, _) := _get_bit c "/get_sensor" "I0_3" o
  match r with
  | .error e => (s, .error e, c)
  | .ok raw => (s, .ok (pyNot raw), c)

/-- `is_conveyor_left_limit_active()`: `not self._get_bit("/get_sensor", "I0_4")`. -/
def is_conveyor_left_limit_active (c : Client) (o : HttpOutcome) :
    List HttpRequest × Except Unit Bool × Client :=
  let (s, r, _) := _get_bit c "/get_sensor" "I0_4" o
  match r with
  | .error e => (s, .error e, c)
  | .ok raw => (s, .ok (pyNot raw), c)

/-- `wait_seconds(duration_seconds)`: `time.sleep`; no effect on the client. -/
def wait_seconds (c : Client) (duration_seconds : Nat) : Unit × Client :=
  ((), c)

end DigitalTwinController

namespace DigitalTwinController

/-- Unfolding `_request` on a response outcome. -/
lemma _request_response (c : Client) (ep : String) (ps : List (String × String))
    (status : Nat) (body : List Char) :
    (_request c ep ps (.response status body)).2.1 =
      (if raise_for_status_errors status then .ok none else .ok (some (pyStrip body))) := rfl

/-- The request actually sent by `_request`. -/
lemma _request_sent (c : Client) (ep : String) (ps : List (String × String)) (o : HttpOutcome) :
    (_request c ep ps o).1 = [⟨c.base_url ++ ep, ps, c.default_timeout⟩] := rfl

/-- `_set_actuator` result as a function of the `_request` result. -/
lemma _set_actuator_result (c : Client) (nm : String) (v : Bool) (o : HttpOutcome) :
    (_set_actuator c nm v o).2.1 =
      (match (_request c "/set_actuator" [("name", nm), ("value", if v then "1" else "0")] o).2.1 with
       | .error e => .error e
       | .ok response_text =>
           match response_text with
           | some t => .ok (pyTruthy t && pyStartswith t "OK:".data)
           | none => .ok false) := rfl

/-- The single request sent by `_set_actuator`. -/
lemma _set_actuator_sent (c : Client) (nm : String) (v : Bool) (o : HttpOutcome) :
    (_set_actuator c nm v o).1 =
      [⟨c.base_url ++ "/set_actuator", [("name", nm), ("value", if v then "1" else "0")],
        c.default_timeout⟩] := rfl

/-- `_set_actuator` does not modify the client. -/
lemma _set_actuator_post (c : Client) (nm : String) (v : Bool) (o : HttpOutcome) :
    (_set_actuator c nm v o).2.2 = c := rfl

/-- `_get_bit` result as a function of the `_request` result. -/
lemma _get_bit_result (c : Client) (ep nm : String) (o : HttpOutcome) :
    (_get_bit c ep nm o).2.1 =
      (match (_request c ep [("name", nm)] o).2.1 with
       | .error e => .error e
       | .ok response_text => .ok (_get_bit_parse response_text)) := rfl

/-- The single request sent by `_get_bit`. -/
lemma _get_bit_sent (c : Client) (ep nm : String) (o : HttpOutcome) :
    (_get_bit c ep nm o).1 = [⟨c.base_url ++ ep, [("name", nm)], c.default_timeout⟩] := rfl

/-- `_get_bit` does not modify the client. -/
lemma _get_bit_post (c : Client) (ep nm : String) (o : HttpOutcome) :
    (_get_bit c ep nm o).2.2 = c := rfl

/-- `_ping` result as a function of the `_request` result. -/
lemma _ping_result (c : Client) (o : HttpOutcome) :
    (_ping c o).2.1 =
      (match (_request c "/ping" [] o).2.1 with
       | .error e => .error e
       | .ok response_text => .ok (pyEqOptStr response_text "PONG".data)) := rfl

/-- `init` as a function of the `_ping` result. -/
lemma init_eq (host : String) (port : Nat) (o : HttpOutcome) :
    init host port o =
      (match (_ping ⟨mk_base_url host port, 5⟩ o).2.1 with
       | .error _ => .error .propagatedRequestError
       | .ok pong =>
           if pong then .ok ⟨mk_base_url host port, 5⟩
           else .error (.connectionFailure (connection_failure_msg (mk_base_url host port)))) := rfl

/-- `stop_punch` unfolded to the results of its two `_set_actuator` calls. -/
lemma stop_punch_eq (c : Client) (o1 o2 : HttpOutcome) :
    stop_punch c o1 o2 =
      (match (_set_actuator c "Q1_4" false o1).2.1 with
       | .error e => ((_set_actuator c "Q1_4" false o1).1, .error e, c)
       | .ok res1 =>
           match (_set_actuator c "Q1_5" false o2).2.1 with
           | .error e =>
               ((_set_actuator c "Q1_4" false o1).1 ++ (_set_actuator c "Q1_5" false o2).1,
                .error e, c)
           | .ok res2 =>
               ((_set_actuator c "Q1_4" false o1).1 ++ (_set_actuator c "Q1_5" false o2).1,
                .ok (res1 && res2), c)) := rfl

/-- `stop_conveyor` unfolded to the results of its two `_set_actuator` calls. -/
lemma stop_conveyor_eq (c : Client) (o1 o2 : HttpOutcome) :
    stop_conveyor c o1 o2 =
      (match (_set_actuator c "Q1_6" false o1).2.1 with
       | .error e => ((_set_actuator c "Q1_6" false o1).1, .error e, c)
       | .ok res1 =>
           match (_set_actuator c "Q1_7" false o2).2.1 with
           | .error e =>
               ((_set_actuator c "Q1_6" false o1).1 ++ (_set_actuator c "Q1_7" false o2).1,
                .error e, c)
           | .ok res2 =>
               ((_set_actuator c "Q1_6" false o1).1 ++ (_set_actuator c "Q1_7" false o2).1,
                .ok (res1 && res2), c)) := rfl

/-- `is_conveyor_right_limit_active` unfolded to its `_get_bit` call. -/
lemma is_conveyor_right_limit_active_eq (c : Client) (o : HttpOutcome) :
    is_conveyor_right_limit_active c o =
      (match (_get_bit c "/get_sensor" "I0_3" o).2.1 with
       | .error e => ((_get_bit c "/get_sensor" "I0_3" o).1, .error e, c)
       | .ok raw => ((_get_bit c "/get_sensor" "I0_3" o).1, .ok (pyNot raw), c)) := rfl

/-- `is_conveyor_left_limit_active` unfolded to its `_get_bit` call. -/
lemma is_conveyor_left_limit_active_eq (c : Client) (o : HttpOutcome) :
    is_conveyor_left_limit_active c o =
      (match (_get_bit c "/get_sensor" "I0_4" o).2.1 with
       | .error e => ((_get_bit c "/get_sensor" "I0_4" o).1, .error e, c)
       | .ok raw => ((_get_bit c "/get_sensor" "I0_4" o).1, .ok (pyNot raw), c)) := rfl

end DigitalTwinController

/-- A string with a nonempty prefix is truthy. -/
lemma pyTruthy_of_startswith (t p : List Char) (hp : p ≠ []) (h : pyStartswith t p = true) :
    pyTruthy t = true := by
  unfold pyStartswith at h
  obtain ⟨r, hr⟩ := List.isPrefixOf_iff_prefix.mp h
  subst hr
  cases p with
  | nil => exact absurd rfl hp
  | cons a l => rfl

/-- `pyEqOptStr` is true exactly on the matching present string. -/
lemma pyEqOptStr_eq_true_iff (r : Option (List Char)) (s : List Char) :
    pyEqOptStr r s = true ↔ r = some s := by
  cases r <;> simp [pyEqOptStr]

/-- For a boolean-valued `Except.ok`, being `ok false` is the negation of being
`ok true`. -/
lemma ok_bool_false_iff (b : Bool) :
    ((Except.ok b : Except Unit Bool) = .ok false) ↔
      ¬ ((Except.ok b : Except Unit Bool) = .ok true) := by
  cases b <;> simp

open DigitalTwinController

/-- Claim C5: in the low-level request primitive, a timeout is logged and
yields an absent result without raising; an HTTP error status (4xx/5xx) is
logged and yields an absent result without raising; a connection-level failure
is re-raised to the caller; and a successful 2xx response yields the response
body with surrounding whitespace trimmed. -/
theorem claim_C5_request_primitive (c : Client) (endpoint : String)
    (params : List (String × String)) :
    ((_request c endpoint params .timeout).2.1 = .ok none) ∧
    (∀ status body, 400 ≤ status → status < 600 →
      (_request c endpoint params (.response status body)).2.1 = .ok none) ∧
    ((_request c endpoint params .connectionError).2.1 = .error ()) ∧
    (∀ status body, 200 ≤ status → status < 300 →
      (_request c endpoint params (.response status body)).2.1 = .ok (some (pyStrip body))) := by
  refine ⟨rfl, fun status body hlo hhi => ?_, rfl, fun status body hlo hhi => ?_⟩
  · have hrf : raise_for_status_errors status = true := by
      simp only [raise_for_status_errors, Bool.and_eq_true, decide_eq_true_eq]
      omega
    rw [_request_response, hrf]
    rfl
  · have hrf : raise_for_status_errors status = false := by
      simp only [raise_for_status_errors, Bool.and_eq_false_iff, decide_eq_false_iff_not]
      omega
    rw [_request_response, hrf]
    rfl

/-- Witness for C5 at concrete inputs: a timeout, a 404, a connection error
and a 200 response with body " PONG ". -/
theorem claim_C5_witness :
    ((_request ⟨"http://localhost:8088", 5⟩ "/ping" [] .timeout).2.1 = .ok none) ∧
    ((_request ⟨"http://localhost:8088", 5⟩ "/ping" [] (.response 404 "err".data)).2.1 = .ok none) ∧
    ((_request ⟨"http://localhost:8088", 5⟩ "/ping" [] .connectionError).2.1 = .error ()) ∧
    ((_request ⟨"http://localhost:8088", 5⟩ "/ping" [] (.response 200 " PONG ".data)).2.1 =
      .ok (some "PONG".data)) := by
  obtain ⟨h1, h2, h3, h4⟩ := claim_C5_request_primitive ⟨"http://localhost:8088", 5⟩ "/ping" []
  refine ⟨h1, h2 404 "err".data (by decide) (by decide), h3, ?_⟩
  rw [h4 200 " PONG ".data (by decide) (by decide)]
  rfl

/-- Claim C8: ping returns true if and only if the trimmed response body
equals the literal string "PONG"; any other body (including "PING", a body
with extra non-whitespace characters, or an absent result) yields false. -/
theorem claim_C8_ping (c : Client) (o : HttpOutcome) (t : Option (List Char))
    (h : (_request c "/ping" [] o).2.1 = .ok t) :
    ((_ping c o).2.1 = .ok true ↔ t = some "PONG".data) ∧
    ((_ping c o).2.1 = .ok false ↔ t ≠ some "PONG".data) := by
  have hkey : (_ping c o).2.1 = .ok (pyEqOptStr t "PONG".data) := by
    rw [_ping_result, h]
  rw [hkey]
  constructor
  · simp only [Except.ok.injEq]
    exact pyEqOptStr_eq_true_iff t "PONG".data
  · simp only [Except.ok.injEq]
    exact Bool.eq_false_iff.trans (not_congr (pyEqOptStr_eq_true_iff t "PONG".data))

/-- Witness for C8: a 200 response whose trimmed body is "PONG" makes ping
return true; a 200 response with body "PING" makes it return false. -/
theorem claim_C8_witness :
    ((_ping ⟨"http://localhost:8088", 5⟩ (.response 200 " PONG".data)).2.1 = .ok true) ∧
    ((_ping ⟨"http://localhost:8088", 5⟩ (.response 200 "PING".data)).2.1 = .ok false) := by
  refine ⟨?_, ?_⟩
  · exact (claim_C8_ping ⟨"http://localhost:8088", 5⟩ (.response 200 " PONG".data)
      (some "PONG".data) rfl).1.mpr rfl
  · exact (claim_C8_ping ⟨"http://localhost:8088", 5⟩ (.response 200 "PING".data)
      (some "PING".data) rfl).2.mpr (by decide)

/-- Characterization of `_get_bit_parse` on a present response text: `some true`
iff the text has the `"VALUE:"` prefix and its first colon-separated field
parses as the integer 1; `some false` iff it parses as another integer; `none`
otherwise. -/
lemma _get_bit_parse_char (t : List Char) :
    (_get_bit_parse (some t) = some true ↔
       pyStartswith t "VALUE:".data = true ∧
       ∃ f, (pySplit ':' t)[1]? = some f ∧ pyInt f = some 1) ∧
    (_get_bit_parse (some t) = some false ↔
       pyStartswith t "VALUE:".data = true ∧
       ∃ f n, (pySplit ':' t)[1]? = some f ∧ pyInt f = some n ∧ n ≠ 1) ∧
    (_get_bit_parse (some t) = none ↔
       ¬ (pyStartswith t "VALUE:".data = true ∧
          ∃ f n, (pySplit ':' t)[1]? = some f ∧ pyInt f = some n)) := by
  by_cases hp : pyStartswith t "VALUE:".data = true
  · have ht : pyTruthy t = true := pyTruthy_of_startswith t "VALUE:".data (by decide) hp
    rcases hf : (pySplit ':' t)[1]? with _ | f
    · simp [_get_bit_parse, ht, hp, hf]
    · rcases hn : pyInt f with _ | n
      · simp [_get_bit_parse, ht, hp, hf, hn]
      · by_cases h1 : n = 1
        · subst h1
          simp [_get_bit_parse, ht, hp, hf, hn]
        · simp [_get_bit_parse, ht, hp, hf, hn, h1]
  · rw [Bool.not_eq_true] at hp
    simp [_get_bit_parse, hp]

/-- Reduction of `_get_bit` on a successful (2xx) response to the body parser. -/
lemma _get_bit_success (c : Client) (ep nm : String) (status : Nat) (body : List Char)
    (hlo : 200 ≤ status) (hhi : status < 300) :
    (_get_bit c ep nm (.response status body)).2.1 =
      .ok (_get_bit_parse (some (pyStrip body))) := by
  have hrf : raise_for_status_errors status = false := by
    simp only [raise_for_status_errors, Bool.and_eq_false_iff, decide_eq_false_iff_not]
    omega
  rw [_get_bit_result, _request_response, hrf]
  rfl

/-- Claim C1 counterexample: the claim says that any body other than exactly
"VALUE:1" / "VALUE:0" (explicitly including "VALUE:2") yields an absent
result, and that true is returned only for exactly "VALUE:1".  On the code,
body "VALUE:2" yields false (not absent) and body "VALUE:01" yields true. -/
theorem claim_C1_counterexample :
    ((_get_bit ⟨"http://localhost:8088", 5⟩ "/get_sensor" "I0_1"
        (.response 200 "VALUE:2".data)).2.1 = .ok (some false)) ∧
    ((_get_bit ⟨"http://localhost:8088", 5⟩ "/get_sensor" "I0_1"
        (.response 200 "VALUE:01".data)).2.1 = .ok (some true)) :=
  ⟨rfl, rfl⟩

/-- Claim C1 (amended): for every 2xx response body, the read-bit operation
returns true iff the trimmed body starts with "VALUE:" and its first
colon-separated field parses as the integer 1 (so also e.g. "VALUE:01");
false iff the field parses as an integer other than 1 (e.g. "VALUE:2");
and an absent/null result for every other body shape, including "VALUE:" and
bodies without the "VALUE:" prefix. -/
theorem claim_C1_amended (c : Client) (ep nm : String) (status : Nat) (body : List Char)
    (hlo : 200 ≤ status) (hhi : status < 300) :
    ((_get_bit c ep nm (.response status body)).2.1 = .ok (some true) ↔
       pyStartswith (pyStrip body) "VALUE:".data = true ∧
       ∃ f, (pySplit ':' (pyStrip body))[1]? = some f ∧ pyInt f = some 1) ∧
    ((_get_bit c ep nm (.response status body)).2.1 = .ok (some false) ↔
       pyStartswith (pyStrip body) "VALUE:".data = true ∧
       ∃ f n, (pySplit ':' (pyStrip body))[1]? = some f ∧ pyInt f = some n ∧ n ≠ 1) ∧
    ((_get_bit c ep nm (.response status body)).2.1 = .ok none ↔
       ¬ (pyStartswith (pyStrip body) "VALUE:".data = true ∧
          ∃ f n, (pySplit ':' (pyStrip body))[1]? = some f ∧ pyInt f = some n)) := by
  have hchar := _get_bit_parse_char (pyStrip body)
  rw [_get_bit_success c ep nm status body hlo hhi]
  refine ⟨?_, ?_, ?_⟩
  · rw [Except.ok.injEq]
    exact hchar.1
  · rw [Except.ok.injEq]
    exact hchar.2.1
  · rw [Except.ok.injEq]
    exact hchar.2.2

/-- Witness for the amended C1: body "VALUE:" (prefix present, unparsable
field) yields an absent result. -/
theorem claim_C1_witness :
    (_get_bit ⟨"http://localhost:8088", 5⟩ "/get_sensor" "I0_1"
        (.response 200 "VALUE:".data)).2.1 = .ok none := by
  have h := claim_C1_amended ⟨"http://localhost:8088", 5⟩ "/get_sensor" "I0_1" 200
    "VALUE:".data (by decide) (by decide)
  refine h.2.2.mpr ?_
  rintro ⟨-, f, n, hf, hn⟩
  have hf0 : (pySplit ':' (pyStrip "VALUE:".data))[1]? = some ([] : List Char) := by decide
  rw [hf0, Option.some_inj] at hf
  rw [← hf] at hn
  have : pyInt ([] : List Char) = none := by decide
  rw [this] at hn
  exact Option.noConfusion hn

/-- Claim C3: for every (2xx) response body whose trimmed form begins with the
prefix "VALUE:" and whose first colon-separated field after the prefix parses
as an integer, the read-bit operation returns true iff that integer equals 1
and returns false iff it equals any other value. -/
theorem claim_C3_get_bit_integer (c : Client) (ep nm : String) (status : Nat)
    (body : List Char) (f : List Char) (n : Int)
    (hlo : 200 ≤ status) (hhi : status < 300)
    (hpre : pyStartswith (pyStrip body) "VALUE:".data = true)
    (hf : (pySplit ':' (pyStrip body))[1]? = some f)
    (hn : pyInt f = some n) :
    ((_get_bit c ep nm (.response status body)).2.1 = .ok (some (decide (n = 1)))) ∧
    ((_get_bit c ep nm (.response status body)).2.1 = .ok (some true) ↔ n = 1) ∧
    ((_get_bit c ep nm (.response status body)).2.1 = .ok (some false) ↔ n ≠ 1) := by
  have hchar := _get_bit_parse_char (pyStrip body)
  have hkey := _get_bit_success c ep nm status body hlo hhi
  have htrue : (_get_bit c ep nm (.response status body)).2.1 = .ok (some true) ↔ n = 1 := by
    rw [hkey, Except.ok.injEq, hchar.1]
    constructor
    · rintro ⟨-, f', hf', h1⟩
      rw [hf, Option.some_inj] at hf'
      rw [← hf', hn, Option.some_inj] at h1
      exact h1
    · rintro rfl
      exact ⟨hpre, f, hf, hn⟩
  have hfalse : (_get_bit c ep nm (.response status body)).2.1 = .ok (some false) ↔ n ≠ 1 := by
    rw [hkey, Except.ok.injEq, hchar.2.1]
    constructor
    · rintro ⟨-, f', n', hf', hn', hne⟩
      rw [hf, Option.some_inj] at hf'
      rw [← hf', hn, Option.some_inj] at hn'
      rw [hn']
      exact hne
    · intro hne
      exact ⟨hpre, f, n, hf, hn, hne⟩
  refine ⟨?_, htrue, hfalse⟩
  by_cases h1 : n = 1
  · subst h1
    simpa using htrue.mpr rfl
  · have := hfalse.mpr h1
    rw [this]
    simp [h1]

/-- Witness for C3: body "VALUE:2" (field parses as 2) yields false. -/
theorem claim_C3_witness :
    (_get_bit ⟨"http://localhost:8088", 5⟩ "/get_sensor" "I0_1"
        (.response 200 "VALUE:2".data)).2.1 = .ok (some false) := by
  have h := claim_C3_get_bit_integer ⟨"http://localhost:8088", 5⟩ "/get_sensor" "I0_1" 200
    "VALUE:2".data "2".data 2 (by decide) (by decide) (by decide) (by decide) (by decide)
  exact h.2.2.mpr (by decide)

/-- Claim C2 counterexample: body "TIMEOUT" makes the raw read-bit result
absent (parse failure), yet is_conveyor_right_limit_active reports true —
Python `not None` is `True` — instead of the absent result the claim
requires. -/
theorem claim_C2_counterexample :
    ((_get_bit ⟨"http://localhost:8088", 5⟩ "/get_sensor" "I0_3"
        (.response 200 "TIMEOUT".data)).2.1 = .ok none) ∧
    ((is_conveyor_right_limit_active ⟨"http://localhost:8088", 5⟩
        (.response 200 "TIMEOUT".data)).2.1 = .ok true) :=
  ⟨rfl, rfl⟩

/-- Claim C2 (amended): is_conveyor_right_limit_active and
is_conveyor_left_limit_active report the Python `not` of the raw read-bit
result: raw true is reported as false, raw false as true, and a raw
absent/null (parse-failure) result is reported as TRUE (`not None` is `True`)
— the reported value is a plain boolean, never absent. -/
theorem claim_C2_amended (c : Client) (oR oL : HttpOutcome) (rawR rawL : Option Bool)
    (hR : (_get_bit c "/get_sensor" "I0_3" oR).2.1 = .ok rawR)
    (hL : (_get_bit c "/get_sensor" "I0_4" oL).2.1 = .ok rawL) :
    ((is_conveyor_right_limit_active c oR).2.1 = .ok (pyNot rawR)) ∧
    ((is_conveyor_left_limit_active c oL).2.1 = .ok (pyNot rawL)) ∧
    (rawR = some true → (is_conveyor_right_limit_active c oR).2.1 = .ok false) ∧
    (rawR = some false → (is_conveyor_right_limit_active c oR).2.1 = .ok true) ∧
    (rawR = none → (is_conveyor_right_limit_active c oR).2.1 = .ok true) ∧
    (rawL = some true → (is_conveyor_left_limit_active c oL).2.1 = .ok false) ∧
    (rawL = some false → (is_conveyor_left_limit_active c oL).2.1 = .ok true) ∧
    (rawL = none → (is_conveyor_left_limit_active c oL).2.1 = .ok true) := by
  have kR : (is_conveyor_right_limit_active c oR).2.1 = .ok (pyNot rawR) := by
    rw [is_conveyor_right_limit_active_eq, hR]
  have kL : (is_conveyor_left_limit_active c oL).2.1 = .ok (pyNot rawL) := by
    rw [is_conveyor_left_limit_active_eq, hL]
  refine ⟨kR, kL, ?_, ?_, ?_, ?_, ?_, ?_⟩ <;> rintro rfl <;> first
    | exact kR
    | exact kL

/-- Witness for the amended C2: raw "VALUE:1" on the right limit reports
false; raw "VALUE:0" on the left limit reports true. -/
theorem claim_C2_witness :
    ((is_conveyor_right_limit_active ⟨"http://localhost:8088", 5⟩
        (.response 200 "VALUE:1".data)).2.1 = .ok false) ∧
    ((is_conveyor_left_limit_active ⟨"http://localhost:8088", 5⟩
        (.response 200 "VALUE:0".data)).2.1 = .ok true) := by
  have h := claim_C2_amended ⟨"http://localhost:8088", 5⟩
    (.response 200 "VALUE:1".data) (.response 200 "VALUE:0".data)
    (some true) (some false) rfl rfl
  exact ⟨h.2.2.1 rfl, h.2.2.2.2.2.2.1 rfl⟩

/-- Claim C7: for every actuator name and boolean value, set-actuator sends
exactly one request to the set path, with the value parameter encoded "1"
when the boolean is true and "0" when false, and returns true iff the
(present) response body begins with the literal prefix "OK:", returning false
for any other or absent response. -/
theorem claim_C7_set_actuator (c : Client) (nm : String) (v : Bool) (o : HttpOutcome)
    (t : Option (List Char))
    (h : (_request c "/set_actuator"
            [("name", nm), ("value", if v then "1" else "0")] o).2.1 = .ok t) :
    ((_set_actuator c nm v o).1 =
      [⟨c.base_url ++ "/set_actuator", [("name", nm), ("value", if v then "1" else "0")],
        c.default_timeout⟩]) ∧
    ((_set_actuator c nm v o).2.1 = .ok true ↔
       ∃ u, t = some u ∧ pyStartswith u "OK:".data = true) ∧
    ((_set_actuator c nm v o).2.1 = .ok false ↔
       ¬ ∃ u, t = some u ∧ pyStartswith u "OK:".data = true) := by
  have hkey := _set_actuator_result c nm v o
  rw [h] at hkey
  rcases t with _ | u
  · have hkey2 : (_set_actuator c nm v o).2.1 = .ok false := hkey.trans rfl
    rw [hkey2]
    refine ⟨_set_actuator_sent c nm v o, ?_, ?_⟩ <;> simp
  · have hkey2 : (_set_actuator c nm v o).2.1 =
        .ok (pyTruthy u && pyStartswith u "OK:".data) := hkey.trans rfl
    have htrue : (_set_actuator c nm v o).2.1 = .ok true ↔
        ∃ u', some u = some u' ∧ pyStartswith u' "OK:".data = true := by
      rw [hkey2]
      constructor
      · intro hh
        rw [Except.ok.injEq, Bool.and_eq_true] at hh
        exact ⟨u, rfl, hh.2⟩
      · rintro ⟨u', hu', hpre⟩
        rw [Option.some_inj] at hu'
        subst hu'
        have ht : pyTruthy u = true :=
          pyTruthy_of_startswith u "OK:".data (by decide) hpre
        rw [ht, hpre]
        rfl
    refine ⟨_set_actuator_sent c nm v o, htrue, ?_⟩
    rw [hkey2, ok_bool_false_iff]
    rw [← hkey2]
    exact not_congr htrue

/-- Witness for C7: setting Q1_7 to true against a server answering
"OK:Q1_7=1" sends the request with value "1" and returns true; against
"ERROR:unknown actuator" it returns false. -/
theorem claim_C7_witness :
    ((_set_actuator ⟨"http://localhost:8088", 5⟩ "Q1_7" true
        (.response 200 "OK:Q1_7=1".data)).1 =
      [⟨"http://localhost:8088" ++ "/set_actuator", [("name", "Q1_7"), ("value", "1")], 5⟩]) ∧
    ((_set_actuator ⟨"http://localhost:8088", 5⟩ "Q1_7" true
        (.response 200 "OK:Q1_7=1".data)).2.1 = .ok true) ∧
    ((_set_actuator ⟨"http://localhost:8088", 5⟩ "Q1_7" true
        (.response 200 "ERROR:unknown actuator".data)).2.1 = .ok false) := by
  have hOk := claim_C7_set_actuator ⟨"http://localhost:8088", 5⟩ "Q1_7" true
    (.response 200 "OK:Q1_7=1".data) (some "OK:Q1_7=1".data) rfl
  have hErr := claim_C7_set_actuator ⟨"http://localhost:8088", 5⟩ "Q1_7" true
    (.response 200 "ERROR:unknown actuator".data) (some "ERROR:unknown actuator".data) rfl
  refine ⟨hOk.1, hOk.2.1.mpr ⟨"OK:Q1_7=1".data, rfl, by decide⟩, hErr.2.2.mpr ?_⟩
  rintro ⟨u, hu, hpre⟩
  rw [Option.some_inj] at hu
  rw [← hu] at hpre
  exact absurd hpre (by decide)

/-- Claim C6: construction raises the ConnectionFailure error iff the probe's
trimmed response body is anything other than exactly "PONG" (including an
absent response after a timeout or request error), and the raised message
names the configured base URL; when the probe body is exactly "PONG",
construction succeeds. -/
theorem claim_C6_construction (host : String) (port : Nat) (o : HttpOutcome)
    (t : Option (List Char))
    (h : (_request ⟨mk_base_url host port, 5⟩ "/ping" [] o).2.1 = .ok t) :
    (init host port o = .ok ⟨mk_base_url host port, 5⟩ ↔ t = some "PONG".data) ∧
    (t ≠ some "PONG".data →
      init host port o =
        .error (.connectionFailure (connection_failure_msg (mk_base_url host port))) ∧
      ∃ pre post, connection_failure_msg (mk_base_url host port) =
        pre ++ mk_base_url host port ++ post) := by
  have hp : (_ping ⟨mk_base_url host port, 5⟩ o).2.1 = .ok (pyEqOptStr t "PONG".data) := by
    rw [_ping_result, h]
  have hkey : init host port o =
      (if pyEqOptStr t "PONG".data then .ok (⟨mk_base_url host port, 5⟩ : Client)
       else .error (.connectionFailure (connection_failure_msg (mk_base_url host port)))) := by
    rw [init_eq, hp]
  cases hb : pyEqOptStr t "PONG".data with
  | true =>
      have ht : t = some "PONG".data := (pyEqOptStr_eq_true_iff t "PONG".data).mp hb
      rw [hb] at hkey
      refine ⟨⟨fun _ => ht, fun _ => hkey.trans rfl⟩, fun hne => absurd ht hne⟩
  | false =>
      have ht : t ≠ some "PONG".data := by
        intro hcontra
        rw [(pyEqOptStr_eq_true_iff t "PONG".data).mpr hcontra] at hb
        exact Bool.noConfusion hb
      rw [hb] at hkey
      have hinit : init host port o =
          .error (.connectionFailure (connection_failure_msg (mk_base_url host port))) :=
        hkey.trans rfl
      refine ⟨⟨fun hcontra => ?_, fun hcontra => absurd hcontra ht⟩, fun _ => ⟨hinit, ?_⟩⟩
      · rw [hinit] at hcontra
        exact Except.noConfusion hcontra
      · exact ⟨"Não foi possível conectar ao Digital Twin em ",
          ". Verifique se o Unity está rodando e o servidor HTTP está ativo.", rfl⟩

/-- Witness for C6: probe body "PONG" at localhost:8088 constructs
successfully; a timeout (absent body) raises the ConnectionFailure whose
message names the base URL. -/
theorem claim_C6_witness :
    (init "localhost" 8088 (.response 200 "PONG".data) =
      .ok ⟨mk_base_url "localhost" 8088, 5⟩) ∧
    (init "localhost" 8088 .timeout =
      .error (.connectionFailure (connection_failure_msg (mk_base_url "localhost" 8088)))) := by
  have hOk := claim_C6_construction "localhost" 8088 (.response 200 "PONG".data)
    (some "PONG".data) rfl
  have hFail := claim_C6_construction "localhost" 8088 .timeout none rfl
  exact ⟨hOk.1.mpr rfl, (hFail.2 (by decide)).1⟩

/-- If the first sub-call of `stop_punch` returned normally, the result is the
boolean AND of both sub-results. -/
lemma stop_punch_result_of_ok (c : Client) (o1 o2 : HttpOutcome) (b1 b2 : Bool)
    (h1 : (_set_actuator c "Q1_4" false o1).2.1 = .ok b1)
    (h2 : (_set_actuator c "Q1_5" false o2).2.1 = .ok b2) :
    (stop_punch c o1 o2).2.1 = .ok (b1 && b2) := by
  rw [stop_punch_eq, h1, h2]

/-- If the first sub-call of `stop_conveyor` returned normally, the result is
the boolean AND of both sub-results. -/
lemma stop_conveyor_result_of_ok (c : Client) (o1 o2 : HttpOutcome) (b1 b2 : Bool)
    (h1 : (_set_actuator c "Q1_6" false o1).2.1 = .ok b1)
    (h2 : (_set_actuator c "Q1_7" false o2).2.1 = .ok b2) :
    (stop_conveyor c o1 o2).2.1 = .ok (b1 && b2) := by
  rw [stop_conveyor_eq, h1, h2]

/-- Claim C4: for every pair of sub-call outcomes, stop_conveyor and
stop_punch each return true iff both of their underlying set-actuator calls
return true; if exactly one sub-call fails the overall result is false even
though the other succeeded. -/
theorem claim_C4_stop_and_semantics (c : Client) (o1 o2 o3 o4 : HttpOutcome)
    (b1 b2 b3 b4 : Bool)
    (h1 : (_set_actuator c "Q1_4" false o1).2.1 = .ok b1)
    (h2 : (_set_actuator c "Q1_5" false o2).2.1 = .ok b2)
    (h3 : (_set_actuator c "Q1_6" false o3).2.1 = .ok b3)
    (h4 : (_set_actuator c "Q1_7" false o4).2.1 = .ok b4) :
    ((stop_punch c o1 o2).2.1 = .ok (b1 && b2)) ∧
    ((stop_punch c o1 o2).2.1 = .ok true ↔ b1 = true ∧ b2 = true) ∧
    ((stop_conveyor c o3 o4).2.1 = .ok (b3 && b4)) ∧
    ((stop_conveyor c o3 o4).2.1 = .ok true ↔ b3 = true ∧ b4 = true) := by
  have kp := stop_punch_result_of_ok c o1 o2 b1 b2 h1 h2
  have kc := stop_conveyor_result_of_ok c o3 o4 b3 b4 h3 h4
  refine ⟨kp, ?_, kc, ?_⟩
  · rw [kp]
    simp [Bool.and_eq_true]
  · rw [kc]
    simp [Bool.and_eq_true]

/-- Witness for C4: a succeeding first stop command with a failing second one
yields overall failure; two succeeding stop commands yield overall success. -/
theorem claim_C4_witness :
    ((stop_punch ⟨"http://localhost:8088", 5⟩ (.response 200 "OK:a".data)
        (.response 200 "ERROR:x".data)).2.1 ≠ .ok true) ∧
    ((stop_conveyor ⟨"http://localhost:8088", 5⟩ (.response 200 "OK:a".data)
        (.response 200 "OK:b".data)).2.1 = .ok true) := by
  have h := claim_C4_stop_and_semantics ⟨"http://localhost:8088", 5⟩
    (.response 200 "OK:a".data) (.response 200 "ERROR:x".data)
    (.response 200 "OK:a".data) (.response 200 "OK:b".data)
    true false true true rfl rfl rfl rfl
  refine ⟨fun hc => ?_, h.2.2.2.mpr ⟨rfl, rfl⟩⟩
  have := h.2.1.mp hc
  exact Bool.noConfusion this.2

/-- If the first sub-call of `stop_punch` returned normally, both requests
were sent, in order. -/
lemma stop_punch_sent_of_ok (c : Client) (o1 o2 : HttpOutcome) (b1 : Bool)
    (h1 : (_set_actuator c "Q1_4" false o1).2.1 = .ok b1) :
    (stop_punch c o1 o2).1 =
      (_set_actuator c "Q1_4" false o1).1 ++ (_set_actuator c "Q1_5" false o2).1 := by
  rw [stop_punch_eq, h1]
  cases (_set_actuator c "Q1_5" false o2).2.1 <;> rfl

/-- If the first sub-call of `stop_conveyor` returned normally, both requests
were sent, in order. -/
lemma stop_conveyor_sent_of_ok (c : Client) (o1 o2 : HttpOutcome) (b1 : Bool)
    (h1 : (_set_actuator c "Q1_6" false o1).2.1 = .ok b1) :
    (stop_conveyor c o1 o2).1 =
      (_set_actuator c "Q1_6" false o1).1 ++ (_set_actuator c "Q1_7" false o2).1 := by
  rw [stop_conveyor_eq, h1]
  cases (_set_actuator c "Q1_7" false o2).2.1 <;> rfl

/-- Claim C10: in stop_punch and stop_conveyor the second set-actuator request
is always issued regardless of the first sub-call's result b1 (in particular
also when b1 is false): whenever the first call returns a result at all, the
sent-request list contains both stop requests. -/
theorem claim_C10_second_request (c : Client) (o1 o2 o3 o4 : HttpOutcome) (b1 b3 : Bool)
    (h1 : (_set_actuator c "Q1_4" false o1).2.1 = .ok b1)
    (h3 : (_set_actuator c "Q1_6" false o3).2.1 = .ok b3) :
    ((stop_punch c o1 o2).1 =
      [⟨c.base_url ++ "/set_actuator", [("name", "Q1_4"), ("value", "0")], c.default_timeout⟩,
       ⟨c.base_url ++ "/set_actuator", [("name", "Q1_5"), ("value", "0")], c.default_timeout⟩]) ∧
    ((stop_conveyor c o3 o4).1 =
      [⟨c.base_url ++ "/set_actuator", [("name", "Q1_6"), ("value", "0")], c.default_timeout⟩,
       ⟨c.base_url ++ "/set_actuator", [("name", "Q1_7"), ("value", "0")], c.default_timeout⟩]) := by
  constructor
  · rw [stop_punch_sent_of_ok c o1 o2 b1 h1, _set_actuator_sent, _set_actuator_sent]
    rfl
  · rw [stop_conveyor_sent_of_ok c o3 o4 b3 h3, _set_actuator_sent, _set_actuator_sent]
    rfl

/-- Witness for C10: even when the first stop sub-call fails (response
"ERROR:x", result false), the second request is still sent. -/
theorem claim_C10_witness :
    ((stop_punch ⟨"http://localhost:8088", 5⟩ (.response 200 "ERROR:x".data)
        (.response 200 "OK:b".data)).1 =
      [⟨"http://localhost:8088" ++ "/set_actuator", [("name", "Q1_4"), ("value", "0")], 5⟩,
       ⟨"http://localhost:8088" ++ "/set_actuator", [("name", "Q1_5"), ("value", "0")], 5⟩]) ∧
    ((stop_conveyor ⟨"http://localhost:8088", 5⟩ (.response 200 "ERROR:x".data)
        (.response 200 "OK:b".data)).1 =
      [⟨"http://localhost:8088" ++ "/set_actuator", [("name", "Q1_6"), ("value", "0")], 5⟩,
       ⟨"http://localhost:8088" ++ "/set_actuator", [("name", "Q1_7"), ("value", "0")], 5⟩]) := by
  exact claim_C10_second_request ⟨"http://localhost:8088", 5⟩
    (.response 200 "ERROR:x".data) (.response 200 "OK:b".data)
    (.response 200 "ERROR:x".data) (.response 200 "OK:b".data) false false rfl rfl

/-- The post-state of `stop_punch` is the unchanged client. -/
lemma stop_punch_post (c : Client) (o1 o2 : HttpOutcome) :
    (stop_punch c o1 o2).2.2 = c := by
  rw [stop_punch_eq]
  cases (_set_actuator c "Q1_4" false o1).2.1 <;>
    [rfl; (cases (_set_actuator c "Q1_5" false o2).2.1 <;> rfl)]

/-- The post-state of `stop_conveyor` is the unchanged client. -/
lemma stop_conveyor_post (c : Client) (o1 o2 : HttpOutcome) :
    (stop_conveyor c o1 o2).2.2 = c := by
  rw [stop_conveyor_eq]
  cases (_set_actuator c "Q1_6" false o1).2.1 <;>
    [rfl; (cases (_set_actuator c "Q1_7" false o2).2.1 <;> rfl)]

/-- The post-state of the negated limit readers is the unchanged client. -/
lemma limit_active_post (c : Client) (o : HttpOutcome) :
    (is_conveyor_right_limit_active c o).2.2 = c ∧
    (is_conveyor_left_limit_active c o).2.2 = c := by
  constructor
  · rw [is_conveyor_right_limit_active_eq]
    cases (_get_bit c "/get_sensor" "I0_3" o).2.1 <;> rfl
  · rw [is_conveyor_left_limit_active_eq]
    cases (_get_bit c "/get_sensor" "I0_4" o).2.1 <;> rfl

/-- The result of `stop_punch` does not depend on the client state. -/
lemma stop_punch_result_indep (c c' : Client) (o1 o2 : HttpOutcome) :
    (stop_punch c o1 o2).2.1 = (stop_punch c' o1 o2).2.1 := by
  have e1 : (_set_actuator c' "Q1_4" false o1).2.1 = (_set_actuator c "Q1_4" false o1).2.1 := rfl
  have e2 : (_set_actuator c' "Q1_5" false o2).2.1 = (_set_actuator c "Q1_5" false o2).2.1 := rfl
  rw [stop_punch_eq c o1 o2, stop_punch_eq c' o1 o2, e1, e2]
  cases (_set_actuator c "Q1_4" false o1).2.1 <;>
    [rfl; (cases (_set_actuator c "Q1_5" false o2).2.1 <;> rfl)]

/-- The result of `stop_conveyor` does not depend on the client state. -/
lemma stop_conveyor_result_indep (c c' : Client) (o1 o2 : HttpOutcome) :
    (stop_conveyor c o1 o2).2.1 = (stop_conveyor c' o1 o2).2.1 := by
  have e1 : (_set_actuator c' "Q1_6" false o1).2.1 = (_set_actuator c "Q1_6" false o1).2.1 := rfl
  have e2 : (_set_actuator c' "Q1_7" false o2).2.1 = (_set_actuator c "Q1_7" false o2).2.1 := rfl
  rw [stop_conveyor_eq c o1 o2, stop_conveyor_eq c' o1 o2, e1, e2]
  cases (_set_actuator c "Q1_6" false o1).2.1 <;>
    [rfl; (cases (_set_actuator c "Q1_7" false o2).2.1 <;> rfl)]

/-- The results of the negated limit readers do not depend on the client
state. -/
lemma limit_active_result_indep (c c' : Client) (o : HttpOutcome) :
    ((is_conveyor_right_limit_active c o).2.1 = (is_conveyor_right_limit_active c' o).2.1) ∧
    ((is_conveyor_left_limit_active c o).2.1 = (is_conveyor_left_limit_active c' o).2.1) := by
  have e3 : (_get_bit c' "/get_sensor" "I0_3" o).2.1 = (_get_bit c "/get_sensor" "I0_3" o).2.1 := rfl
  have e4 : (_get_bit c' "/get_sensor" "I0_4" o).2.1 = (_get_bit c "/get_sensor" "I0_4" o).2.1 := rfl
  constructor
  · rw [is_conveyor_right_limit_active_eq c o, is_conveyor_right_limit_active_eq c' o, e3]
    cases (_get_bit c "/get_sensor" "I0_3" o).2.1 <;> rfl
  · rw [is_conveyor_left_limit_active_eq c o, is_conveyor_left_limit_active_eq c' o, e4]
    cases (_get_bit c "/get_sensor" "I0_4" o).2.1 <;> rfl

/-- Claim C9: the client's base URL and fixed timeout are immutable after
construction — no operation modifies the client state — the client consists
of exactly those two fields (no cached actuator/sensor state), and every
operation's returned value is independent of the client it is invoked on,
depending only on that call's remote response outcome(s). -/
theorem claim_C9_immutability :
    ∀ c : Client,
      (c = ⟨c.base_url, c.default_timeout⟩) ∧
      (∀ nm v o, (_set_actuator c nm v o).2.2 = c) ∧
      (∀ ep nm o, (_get_bit c ep nm o).2.2 = c) ∧
      (∀ o, (_ping c o).2.2 = c) ∧
      (∀ o, (move_punch_down c o).2.2 = c ∧ (move_punch_up c o).2.2 = c ∧
            (move_conveyor_left c o).2.2 = c ∧ (move_conveyor_right c o).2.2 = c ∧
            (is_punch_down_sensor_active c o).2.2 = c ∧
            (is_punch_up_sensor_active c o).2.2 = c ∧
            (is_conveyor_right_limit_active c o).2.2 = c ∧
            (is_conveyor_left_limit_active c o).2.2 = c) ∧
      (∀ o1 o2, (stop_punch c o1 o2).2.2 = c ∧ (stop_conveyor c o1 o2).2.2 = c) ∧
      (∀ d, (wait_seconds c d).2 = c) ∧
      (∀ c' nm v o, (_set_actuator c nm v o).2.1 = (_set_actuator c' nm v o).2.1) ∧
      (∀ c' ep nm o, (_get_bit c ep nm o).2.1 = (_get_bit c' ep nm o).2.1) ∧
      (∀ c' o, (_ping c o).2.1 = (_ping c' o).2.1) ∧
      (∀ c' o1 o2, (stop_punch c o1 o2).2.1 = (stop_punch c' o1 o2).2.1 ∧
                   (stop_conveyor c o1 o2).2.1 = (stop_conveyor c' o1 o2).2.1) ∧
      (∀ c' o,
        (is_conveyor_right_limit_active c o).2.1 = (is_conveyor_right_limit_active c' o).2.1 ∧
        (is_conveyor_left_limit_active c o).2.1 = (is_conveyor_left_limit_active c' o).2.1) := by
  intro c
  refine ⟨rfl, fun nm v o => rfl, fun ep nm o => rfl, fun o => rfl,
    fun o => ⟨rfl, rfl, rfl, rfl, rfl, rfl,
      (limit_active_post c o).1, (limit_active_post c o).2⟩,
    fun o1 o2 => ⟨stop_punch_post c o1 o2, stop_conveyor_post c o1 o2⟩,
    fun d => rfl,
    fun c' nm v o => rfl, fun c' ep nm o => rfl, fun c' o => rfl,
    fun c' o1 o2 => ⟨stop_punch_result_indep c c' o1 o2, stop_conveyor_result_indep c c' o1 o2⟩,
    fun c' o => limit_active_result_indep c c' o⟩
